import Mathlib

/-!
Verification of the load-test email report builder.

Shallow embedding of `src/build_email.py`, `src/utils.py` and
`src/send_email.py`.  Python strings are modeled as `List Char`; a pandas
`DataFrame` is a list of column names together with rows of cells aligned by
position.  Numeric CSV cells are modeled as `Cell.num` (pandas types numeric
columns on read), string cells as `Cell.s`, and NaN/NaT as `Cell.nan`;
`pd.to_numeric(..., errors="coerce")` therefore maps numeric cells to their
value and everything else to missing.  `pd.to_datetime(..., errors="coerce")`
is kept as an explicit parameter `toDT : Cell → Option Int` (a timestamp key,
`none` meaning NaT); `sort_values` is modeled as a sort by the corresponding
comparator with missing keys last.  None of the proved properties depends on
the particular order the sort produces.
-/

namespace LoadEmail

/-- A scalar cell of a tabular dataset: a string value, a numeric value, or
the missing marker (NaN/NaT). -/
inductive Cell where
  | s (v : List Char)
  | num (n : Int)
  | nan
deriving DecidableEq

/-- Decimal digits of a natural number, as characters. -/
def natChars (n : Nat) : List Char := Nat.toDigits 10 n

/-- Decimal representation of an integer, as characters. -/
def intChars : Int → List Char
  | .ofNat n => natChars n
  | .negSucc n => '-' :: natChars (n + 1)

/-- Python `str()` of a cell, as applied by f-string interpolation: numbers
print their decimal representation and the missing marker prints "nan". -/
def pyStr : Cell → List Char
  | .s v => v
  | .num n => intChars n
  | .nan => "nan".data

/-- Model of `pd.isna` on a single cell. -/
def isna : Cell → Bool
  | .nan => true
  | _ => false

/-- Model of `pd.to_numeric(v, errors="coerce")` on a single cell: numeric
cells keep their value, strings and missing coerce to missing. -/
def toNumeric : Cell → Option Int
  | .num n => some n
  | _ => none

/-- A pandas DataFrame: ordered column names and rows of cells aligned with
the columns by position. -/
structure DataFrame where
  columns : List (List Char)
  rows : List (List Cell)
deriving DecidableEq

/-- Model of pandas `df.empty`: true when either axis has length zero. -/
def DataFrame.isEmpty (df : DataFrame) : Bool :=
  df.rows.isEmpty || df.columns.isEmpty

/-- Position of a column name in the dataframe, `none` when absent
(`c in df.columns` in the source). -/
def colIdx (df : DataFrame) (c : List Char) : Option Nat :=
  df.columns.findIdx? (fun x => x == c)

/-- Cell of a row at a named column (`row[c]` / `df.loc[i, c]`). -/
def getCell? (df : DataFrame) (r : List Cell) (c : List Char) : Option Cell :=
  (colIdx df c).bind (fun i => r.get? i)

/-- Model of `row.get(c, default)` followed by f-string interpolation:
the stringified cell when the column exists, the default string otherwise. -/
def getStr (df : DataFrame) (r : List Cell) (c : List Char) (dflt : List Char) :
    List Char :=
  match getCell? df r c with
  | some v => pyStr v
  | none => dflt

/-- Cell display in the HTML serializer: `'' if pd.isna(v) else str(v)`. -/
def display (v : Cell) : List Char :=
  if isna v then [] else pyStr v

/-- Model of `html.escape` on one character (quote=True): the five special
characters are replaced by their entities. -/
def escapeChar (c : Char) : List Char :=
  if c = '&' then "&amp;".data
  else if c = '<' then "&lt;".data
  else if c = '>' then "&gt;".data
  else if c = Char.ofNat 34 then "&quot;".data
  else if c = Char.ofNat 39 then "&#x27;".data
  else [c]

/-- Model of Python `html.escape(s)` (sequential replacement starting with
`&` is extensionally a per-character map). -/
def htmlEscape (s : List Char) : List Char := (s.map escapeChar).flatten

/-! ## src/utils.py : df_to_html_table and clamp_top -/

/-- Style constant `styles` of `df_to_html_table`. -/
def styles : List Char := "border-collapse: collapse; width:100%;".data

/-- Style constant `thtd` of `df_to_html_table`. -/
def thtd : List Char :=
  "border:1px solid #ddd; padding:6px; text-align:left; font-size:13px;".data

/-- Literal part of a header cell before the escaped column name. -/
def headCellPre : List Char :=
  "<th style=\x27".data ++ thtd ++ "; background:#f5f5f5\x27>".data

/-- One header cell: `<th ...>{html.escape(str(c))}</th>`. -/
def headCellHtml (c : List Char) : List Char :=
  headCellPre ++ htmlEscape c ++ "</th>".data

/-- The header row `head_html` of `df_to_html_table`. -/
def headHtml (cols : List (List Char)) : List Char :=
  "<tr>".data ++ (cols.map headCellHtml).flatten ++ "</tr>".data

/-- Literal part of a body cell before the escaped display value. -/
def bodyCellPre : List Char :=
  "<td style=\x27".data ++ thtd ++ "\x27>".data

/-- One body cell: `<td ...>{html.escape('' if pd.isna(v) else str(v))}</td>`. -/
def bodyCellHtml (v : Cell) : List Char :=
  bodyCellPre ++ htmlEscape (display v) ++ "</td>".data

/-- One body row: `<tr>{body_cells}</tr>`. -/
def bodyRowHtml (r : List Cell) : List Char :=
  "<tr>".data ++ (r.map bodyCellHtml).flatten ++ "</tr>".data

/-- Fixed placeholder of the serializer for an empty dataframe. -/
def noDataHtml : List Char := "<p><em>No data available.</em></p>".data

/-- Opening literal of the serialized table. -/
def tablePre : List Char := "<table style=\x27".data ++ styles ++ "\x27>".data

/-- Model of `utils.df_to_html_table`. -/
def df_to_html_table (df : DataFrame) (header : Bool) : List Char :=
  if df.isEmpty then noDataHtml
  else
    tablePre ++ (if header then headHtml df.columns else [])
      ++ (df.rows.map bodyRowHtml).flatten ++ "</table>".data

/-- Model of `utils.clamp_top`. -/
def clamp_top (df : DataFrame) (n : Nat) : DataFrame :=
  if df.isEmpty then df else ⟨df.columns, df.rows.take n⟩

/-! ## Counting substring occurrences

`countSub p s` counts the positions of `s` at which the pattern `p` occurs.
For patterns that start with `<`, occurrences distribute over concatenation
with escaped (hence `<`-free) segments, which lets us count HTML tags in the
serializer output. -/

/-- Whether the pattern is a prefix of the text. -/
def leadMatch : List Char → List Char → Bool
  | [], _ => true
  | _ :: _, [] => false
  | p :: ps, c :: cs => p == c && leadMatch ps cs

/-- Number of positions of `s` at which the pattern `p` occurs. -/
def countSub (p : List Char) : List Char → Nat
  | [] => 0
  | c :: rest => (if leadMatch p (c :: rest) then 1 else 0) + countSub p rest

/-- `p` occurs somewhere in `s` as a contiguous substring. -/
def containsSub (p s : List Char) : Prop := ∃ a b, s = a ++ p ++ b

/-- Whether the pattern could match at the head of the text for a suitable
continuation of the text: like `leadMatch`, but an exhausted text is
compatible. -/
def mayMatch : List Char → List Char → Bool
  | _, [] => true
  | [], _ :: _ => true
  | p :: ps, c :: cs => p == c && mayMatch ps cs

/-- A list is cut-safe for tail `q` when every possible occurrence of the
pattern `'<' :: q` starting inside it is decided inside it: at each position
either enough characters remain, or no occurrence can start there no matter
how the list is continued. -/
def splitOK (q : List Char) : List Char → Bool
  | [] => true
  | c :: rest =>
      (decide (q.length ≤ rest.length) || !(c == '<' && mayMatch q rest)) &&
        splitOK q rest

/-! ## Sorting (model of pandas sort_values)

A stable insertion sort parameterized by a boolean comparator meaning
"may be placed before".  `sort_values("EndTime", ascending=False)` is modeled
by `sortBy (endKeyLe i)` on the rows, with missing keys placed last
(pandas `na_position="last"` default). -/

/-- Insert one element into a sorted list. -/
def insertBy {α : Type} (le : α → α → Bool) (x : α) : List α → List α
  | [] => [x]
  | y :: ys => if le x y then x :: y :: ys else y :: insertBy le x ys

/-- Stable insertion sort by a boolean comparator. -/
def sortBy {α : Type} (le : α → α → Bool) : List α → List α
  | [] => []
  | x :: xs => insertBy le x (sortBy le xs)

/-- Descending comparison on parsed end-time keys at row position `i`:
larger timestamps first, missing (NaT) last. -/
def endKeyLe (i : Nat) (r1 r2 : List Cell) : Bool :=
  match r1.getD i Cell.nan, r2.getD i Cell.nan with
  | Cell.num a, Cell.num b => decide (b ≤ a)
  | Cell.num _, _ => true
  | _, Cell.num _ => false
  | _, _ => true

/-! ## src/build_email.py : build_scenarios_table -/

/-- The `colmap` alias table of `build_scenarios_table`. -/
def scColmap : List (List Char × List (List Char)) :=
  [("Script Name".data,
      ["Script Name".data, "Script_Name".data, "script".data, "Scenario".data]),
   ("Portal".data, ["Portal".data]),
   ("Achieved Volume".data,
      ["Achieved Volume".data, "Achieved_Volume".data, "achieved".data]),
   ("User distribution".data,
      ["User distribution".data, "User_distribution".data, "users".data])]

/-- The `pick` helper: first alias present among the columns. -/
def pick (df : DataFrame) (cands : List (List Char)) : Option (List Char) :=
  cands.find? (fun c => (colIdx df c).isSome)

/-- Projection `df[keep_cols]`: keep the named columns, in the given order. -/
def projectCols (df : DataFrame) (cs : List (List Char)) : DataFrame :=
  ⟨cs, df.rows.map (fun r => cs.map (fun c => (getCell? df r c).getD Cell.nan))⟩

/-- Python `str.lower` on a string (ASCII data). -/
def lowerChars (s : List Char) : List Char := s.map Char.toLower

/-- The mask `df[script_col].astype(str).str.lower() == "total"` on one row. -/
def isTotalRow (df : DataFrame) (sc : List Char) (r : List Cell) : Bool :=
  lowerChars (pyStr ((getCell? df r sc).getD Cell.nan)) == "total".data

/-- Rename columns through an association list (pandas `df.rename(columns=m)`,
names not in the map are unchanged). -/
def renameCol (m : List (List Char × List Char)) (c : List Char) : List Char :=
  match m.lookup c with
  | some v => v
  | none => c

/-- Model of `df.rename(columns=m)`. -/
def applyRename (m : List (List Char × List Char)) (df : DataFrame) : DataFrame :=
  ⟨df.columns.map (renameCol m), df.rows⟩

/-- The picked source column name for each canonical scenario column. -/
def scPicks (df : DataFrame) : List (List Char × Option (List Char)) :=
  scColmap.map (fun kv => (kv.1, pick df kv.2))

/-- `keep_cols` after dropping unresolved columns. -/
def scKeepCols (df : DataFrame) : List (List Char) :=
  ((scPicks df).map Prod.snd).filterMap id

/-- The projected scenarios dataframe `df[keep_cols]`. -/
def scProjected (df : DataFrame) : DataFrame :=
  projectCols df (scKeepCols df)

/-- The resolved script-name column, `cols["Script Name"]`. -/
def scScriptPick (df : DataFrame) : Option (List Char) :=
  pick df ["Script Name".data, "Script_Name".data, "script".data, "Scenario".data]

/-- Pulling any "Total" row (case-insensitive match on the script-name
column) to the bottom: `pd.concat([df[~mask], df[mask]])`. -/
def scReordered (df : DataFrame) : DataFrame :=
  match scScriptPick df with
  | none => scProjected df
  | some sc =>
      if (colIdx (scProjected df) sc).isSome then
        ⟨(scProjected df).columns,
         (scProjected df).rows.filter
             (fun r => !isTotalRow (scProjected df) sc r) ++
           (scProjected df).rows.filter
             (fun r => isTotalRow (scProjected df) sc r)⟩
      else scProjected df

/-- The rename map back to canonical scenario headers. -/
def scRenameMap (df : DataFrame) : List (List Char × List Char) :=
  (scPicks df).filterMap (fun kv => kv.2.map (fun src => (src, kv.1)))

/-- Model of `build_scenarios_table`. -/
def build_scenarios_table (load_df : DataFrame) : List Char :=
  if scKeepCols load_df = [] then
    "<p><em>Scenarios not available (column mismatch).</em></p>".data
  else
    df_to_html_table (applyRename (scRenameMap load_df) (scReordered load_df)) true

/-! ## src/build_email.py : build_load_summary -/

/-- The `rename_map` standardizing headers in `build_load_summary`. -/
def lsRenameMap : List (List Char × List Char) :=
  [("Run ID".data, "RunID".data), ("RunID".data, "RunID".data),
   ("Run Name".data, "RunName".data), ("RunName".data, "RunName".data),
   ("Start".data, "StartTime".data), ("StartTime".data, "StartTime".data),
   ("End".data, "EndTime".data), ("EndTime".data, "EndTime".data),
   ("Total Vusers".data, "Total Vusers".data),
   ("Average Throughput (B/s)".data, "Average Throughput (B/s)".data),
   ("Total Hits".data, "Total Hits".data),
   ("Average Hits/sec".data, "Average Hits/sec".data),
   ("Passed Ratio".data, "Passed Ratio".data),
   ("Total Transactions".data, "Total Transactions".data),
   ("Total Average Response Time (Sec)".data,
    "Total Average Response Time (Sec)".data),
   ("Achieved Volumes".data, "Achieved Volumes".data)]

/-- The dataframe after header standardization. -/
def lsNormalize (load_df : DataFrame) : DataFrame :=
  applyRename lsRenameMap load_df

/-- Result of `pd.to_datetime(c, errors="coerce")` on one cell, given the
parse function: a timestamp, or NaT. -/
def toDTCell (toDT : Cell → Option Int) (c : Cell) : Cell :=
  match toDT c with
  | some n => Cell.num n
  | none => Cell.nan

/-- The dataframe after parsing and descending-sorting on "EndTime" when that
column exists (`df_sorted`), otherwise the normalized dataframe unchanged. -/
def lsSorted (toDT : Cell → Option Int) (load_df : DataFrame) : DataFrame :=
  match colIdx (lsNormalize load_df) ("EndTime".data) with
  | none => lsNormalize load_df
  | some i =>
      ⟨(lsNormalize load_df).columns,
       sortBy (endKeyLe i)
         ((lsNormalize load_df).rows.map
           (fun r => r.set i (toDTCell toDT (r.getD i Cell.nan))))⟩

/-- The two selected Run Records (`two`): the first two sorted rows, the
single row duplicated when fewer than two exist. -/
def lsTwo (toDT : Cell → Option Int) (load_df : DataFrame) : DataFrame :=
  ⟨(lsSorted toDT load_df).columns,
   if ((lsSorted toDT load_df).rows.take 2).length < 2 then
     ((lsSorted toDT load_df).rows.take 2 ++
       (lsSorted toDT load_df).rows.take 2).take 2
   else (lsSorted toDT load_df).rows.take 2⟩

/-- First selected row (`two.loc[0]`). -/
def lsRow0 (toDT : Cell → Option Int) (load_df : DataFrame) : List Cell :=
  (lsTwo toDT load_df).rows.getD 0 []

/-- Second selected row (`two.loc[1]`). -/
def lsRow1 (toDT : Cell → Option Int) (load_df : DataFrame) : List Cell :=
  (lsTwo toDT load_df).rows.getD 1 []

/-- `str(two.loc[i, "RunID"]) if "RunID" in two.columns else default`. -/
def runIdStr (df : DataFrame) (r : List Cell) (dflt : List Char) : List Char :=
  if (colIdx df ("RunID".data)).isSome then
    pyStr ((getCell? df r ("RunID".data)).getD Cell.nan)
  else dflt

/-- The `name_and_time` helper: `f"{rn} - {st} - {et}"` with Series.get
defaults "Run", "", "". -/
def nameAndTime (df : DataFrame) (r : List Cell) : List Char :=
  getStr df r ("RunName".data) ("Run".data) ++ " - ".data ++
    getStr df r ("StartTime".data) [] ++ " - ".data ++
    getStr df r ("EndTime".data) []

/-- Literal segments of the `heading_row` f-string. -/
def lsHeadA : List Char :=
  "\n      <table style=\"border-collapse:collapse;width:100%;margin-bottom:8px\">\n        <tr>\n          <td style=\"padding:4px 0;\"><strong>Run ID - ".data

/-- Segment between the two RunID slots. -/
def lsHeadB : List Char :=
  "</strong></td>\n          <td style=\"padding:4px 0;\"><strong>Run ID - ".data

/-- Segment between the RunID row and the first name-and-time slot. -/
def lsHeadC : List Char :=
  "</strong></td>\n        </tr>\n        <tr>\n          <td style=\"padding:4px 0;\">".data

/-- Segment between the two name-and-time slots. -/
def lsHeadD : List Char :=
  "</td>\n          <td style=\"padding:4px 0;\">".data

/-- Closing segment of the heading fragment. -/
def lsHeadE : List Char :=
  "</td>\n        </tr>\n      </table>\n    ".data

/-- The two-run heading fragment of the load summary. -/
def lsHeading (toDT : Cell → Option Int) (load_df : DataFrame) : List Char :=
  lsHeadA ++ runIdStr (lsTwo toDT load_df) (lsRow0 toDT load_df) ("Run A".data) ++
    lsHeadB ++ runIdStr (lsTwo toDT load_df) (lsRow1 toDT load_df) ("Run B".data) ++
    lsHeadC ++ nameAndTime (lsTwo toDT load_df) (lsRow0 toDT load_df) ++
    lsHeadD ++ nameAndTime (lsTwo toDT load_df) (lsRow1 toDT load_df) ++ lsHeadE

/-- The fixed `metric_order` list. -/
def metricOrder : List (List Char) :=
  ["Total Vusers".data, "Average Throughput (B/s)".data, "Total Hits".data,
   "Average Hits/sec".data, "Passed Ratio".data, "Total Transactions".data,
   "Total Average Response Time (Sec)".data, "Achieved Volumes".data]

/-- `two.loc[i, m] if m in two.columns else ""`, stringified by the
f-string (a present NaN prints "nan", an absent column the empty string). -/
def metricVal (df : DataFrame) (r : List Cell) (m : List Char) : List Char :=
  if (colIdx df m).isSome then pyStr ((getCell? df r m).getD Cell.nan) else []

/-- Literal segments of one metric row. -/
def lsRowA : List Char :=
  "\n          <tr>\n            <td style=\"border:1px solid #ddd; padding:6px; font-weight:bold;\">".data

/-- Segment before each of the two value slots of a metric row. -/
def lsRowB : List Char :=
  "</td>\n            <td style=\"border:1px solid #ddd; padding:6px;\">".data

/-- Closing segment of a metric row. -/
def lsRowD : List Char :=
  "</td>\n          </tr>\n        ".data

/-- One metric comparison row. -/
def lsMetricRow (df : DataFrame) (r0 r1 : List Cell) (m : List Char) :
    List Char :=
  lsRowA ++ m ++ lsRowB ++ metricVal df r0 m ++ lsRowB ++ metricVal df r1 m ++
    lsRowD

/-- Opening literal of the metric table (three header cells). -/
def lsTableA : List Char :=
  "\n      <table style=\"border-collapse:collapse;width:100%;\">\n        <tr>\n          <th style=\"border:1px solid #ddd;padding:6px;background:#f5f5f5;\">Metric</th>\n          <th style=\"border:1px solid #ddd;padding:6px;background:#f5f5f5;\">Load Test Summary</th>\n          <th style=\"border:1px solid #ddd;padding:6px;background:#f5f5f5;\">Load Test Summary</th>\n        </tr>\n        ".data

/-- Closing literal of the metric table. -/
def lsTableB : List Char :=
  "\n      </table>\n    ".data

/-- The metric comparison table of the load summary. -/
def lsMetricsTable (toDT : Cell → Option Int) (load_df : DataFrame) :
    List Char :=
  lsTableA ++
    (metricOrder.map
      (lsMetricRow (lsTwo toDT load_df) (lsRow0 toDT load_df)
        (lsRow1 toDT load_df))).flatten ++
    lsTableB

/-- Model of `build_load_summary`: the pair (heading fragment, metric
table), with the placeholder on an empty load dataset. -/
def build_load_summary (toDT : Cell → Option Int) (load_df : DataFrame) :
    List Char × List Char :=
  if load_df.isEmpty then ("<p><em>No load test summary.</em></p>".data, [])
  else (lsHeading toDT load_df, lsMetricsTable toDT load_df)

/-! ## src/build_email.py : build_comparison_tables -/

/-- Built-in default of `COMP_HEADING_LEFT`. -/
def compDefaultLeft : List Char :=
  "MP_1.1_5K_Users_LoadTest_05022026 - 05/02/2026 02:05:27 - 05/02/2026 11:39:26 EST".data

/-- Built-in default of `COMP_HEADING_RIGHT`. -/
def compDefaultRight : List Char :=
  "MP_1.1_5K_LoadTest_18022026 - 18/02/2026 03:08:02 AM - 18/02/2026 01:58:24 PM EST".data

/-- Opening literal of the comparison heading fragment. -/
def compHeadA : List Char :=
  "\n      <table style=\"border-collapse:collapse;width:100%;margin-bottom:8px\">\n        <tr>\n          <td style=\"padding:4px 0;\"><strong>".data

/-- Segment between the two caption slots. -/
def compHeadB : List Char :=
  "</strong></td>\n          <td style=\"padding:4px 0;\"><strong>".data

/-- Closing literal of the comparison heading fragment. -/
def compHeadC : List Char :=
  "</strong></td>\n        </tr>\n        <tr>\n          <td style=\"padding:4px 0;\"><strong>Load Test Summary</strong></td>\n          <td style=\"padding:4px 0;\"><strong>Load Test Summary</strong></td>\n        </tr>\n      </table>\n    ".data

/-- The comparison heading: `os.getenv` with hard-coded default captions. -/
def compHeading (env : List Char → Option (List Char)) : List Char :=
  compHeadA ++ ((env ("COMP_HEADING_LEFT".data)).getD compDefaultLeft) ++
    compHeadB ++ ((env ("COMP_HEADING_RIGHT".data)).getD compDefaultRight) ++
    compHeadC

/-- The `expected_cols` of `build_comparison_tables`. -/
def compExpectedCols : List (List Char) :=
  ["Transaction Names".data,
   "Average (Sec)_A".data, "90 Percent (Sec)_A".data,
   "95 Percent (Sec)_A".data, "99 Percent (Sec)_A".data,
   "Average (Sec)_B".data, "90 Percent (Sec)_B".data,
   "95 Percent (Sec)_B".data, "99 Percent (Sec)_B".data,
   "Deviation".data, "Deviation %".data]

/-- The display rename map stripping the `_A`/`_B` suffixes. -/
def compRenameMap : List (List Char × List Char) :=
  [("Transaction Names".data, "Transaction Names".data),
   ("Average (Sec)_A".data, "Average (Sec)".data),
   ("90 Percent (Sec)_A".data, "90 Percent (Sec)".data),
   ("95 Percent (Sec)_A".data, "95 Percent (Sec)".data),
   ("99 Percent (Sec)_A".data, "99 Percent (Sec)".data),
   ("Average (Sec)_B".data, "Average (Sec)".data),
   ("90 Percent (Sec)_B".data, "90 Percent (Sec)".data),
   ("95 Percent (Sec)_B".data, "95 Percent (Sec)".data),
   ("99 Percent (Sec)_B".data, "99 Percent (Sec)".data),
   ("Deviation".data, "Deviation".data),
   ("Deviation %".data, "Deviation %".data)]

/-- The expected columns present in the comparison dataset. -/
def compPresent (df : DataFrame) : List (List Char) :=
  compExpectedCols.filter (fun c => (colIdx df c).isSome)

/-- Model of `build_comparison_tables`. -/
def build_comparison_tables (env : List Char → Option (List Char))
    (comp_df : DataFrame) : List Char × List Char :=
  if comp_df.isEmpty then ("<p><em>No comparison data.</em></p>".data, [])
  else
    (compHeading env,
     df_to_html_table
       (applyRename compRenameMap
         (clamp_top (projectCols comp_df (compPresent comp_df)) 50)) true)

/-! ## src/build_email.py : build_observations -/

/-- The fixed degradation sentence. -/
def degradeSentence : List Char :=
  "Response times degraded compared to the previous 5,000-user load test.".data

/-- The fixed fallback sentence. -/
def fallbackSentence : List Char :=
  "Attached is the comparison report summarizing the last two tests with 5k users each.".data

/-- The response-time column name. -/
def rtCol : List Char := "Total Average Response Time (Sec)".data

/-- The dataframe of the degradation check after the End/EndTime rename. -/
def obsRenamed (load_df : DataFrame) : DataFrame :=
  applyRename
    [("End".data, "EndTime".data), ("EndTime".data, "EndTime".data)] load_df

/-- The parsed dataframe of the degradation check (`d2`). -/
def obsParsed (toDT : Cell → Option Int) (load_df : DataFrame) (i : Nat) :
    DataFrame :=
  ⟨(obsRenamed load_df).columns,
   (obsRenamed load_df).rows.map
     (fun r => r.set i (toDTCell toDT (r.getD i Cell.nan)))⟩

/-- The two most-recent rows of the degradation check. -/
def obsTwo (toDT : Cell → Option Int) (load_df : DataFrame) (i : Nat) :
    List (List Cell) :=
  (sortBy (endKeyLe i) (obsParsed toDT load_df i).rows).take 2

/-- First observation: response-time degradation between the two most-recent
runs.  The surrounding `try/except` makes a missing "EndTime" column (the
`KeyError` of `df["EndTime"]`) silently produce nothing. -/
def degradationObs (toDT : Cell → Option Int) (load_df : DataFrame) :
    List (List Char) :=
  match colIdx (obsRenamed load_df) ("EndTime".data) with
  | none => []
  | some i =>
      if (obsTwo toDT load_df i).length == 2 then
        match toNumeric ((getCell? (obsParsed toDT load_df i)
                ((obsTwo toDT load_df i).getD 0 []) rtCol).getD Cell.nan),
              toNumeric ((getCell? (obsParsed toDT load_df i)
                ((obsTwo toDT load_df i).getD 1 []) rtCol).getD Cell.nan) with
        | some cur, some prev => if prev < cur then [degradeSentence] else []
        | _, _ => []
      else []

/-- The interpolated error sentence. -/
def errSentence (executedUsers : List Char) (h500 h422 : Int) : List Char :=
  "During the ".data ++ executedUsers ++ " load test, we observed ".data ++
    intChars h500 ++ " (500) and ".data ++ intChars h422 ++ " (422) errors.".data

/-- `error_df.groupby(code_col)[cnt_col].sum().get(code, 0)`: sum of the
Count cells of the rows whose StatusCode cell equals the code. -/
def codeSum (df : DataFrame) (ci cci : Nat) (code : Int) : Int :=
  ((df.rows.filter (fun r => r.getD ci Cell.nan == Cell.num code)).map
    (fun r => (toNumeric (r.getD cci Cell.nan)).getD 0)).sum

/-- Second observation: HTTP 500/422 error counts. -/
def errorObs (executedUsers : List Char) (error_df : DataFrame) :
    List (List Char) :=
  if error_df.isEmpty then []
  else
    match colIdx error_df ("StatusCode".data), colIdx error_df ("Count".data) with
    | some ci, some cci =>
        if codeSum error_df ci cci 500 ≠ 0 ∨ codeSum error_df ci cci 422 ≠ 0 then
          [errSentence executedUsers (codeSum error_df ci cci 500)
            (codeSum error_df ci cci 422)]
        else []
    | _, _ => []

set_option linter.unusedVariables false in
/-- Model of `build_observations` (the `slow_df` argument is accepted and
unused, as in the source). -/
def build_observations (toDT : Cell → Option Int) (executedUsers : List Char)
    (load_df error_df slow_df : DataFrame) : List (List Char) :=
  if degradationObs toDT load_df ++ errorObs executedUsers error_df = [] then
    [fallbackSentence]
  else degradationObs toDT load_df ++ errorObs executedUsers error_df

/-! ## src/build_email.py : read_csv_safe -/

/-- `os.path.join(base, name)` for a relative name. -/
def joinPath (a b : List Char) : List Char := a ++ "/".data ++ b

/-- The empty dataset: zero rows, zero columns. -/
def emptyDF : DataFrame := ⟨[], []⟩

/-- Model of `read_csv_safe`.  The file system is a partial map from paths
to the outcome of `pd.read_csv` there (`Except.error` models a parser
exception, which the function lets propagate); a path mapped to `none` does
not exist. -/
def read_csv_safe (dataDir : List Char)
    (fs : List Char → Option (Except (List Char) DataFrame))
    (path : List Char) : Except (List Char) DataFrame :=
  match fs (joinPath dataDir path) with
  | none => Except.ok emptyDF
  | some r => r

/-! ## Executed-user-count detector (spec-modelled) -/

/-- Thousands grouping over reversed digits: a comma before every group of
three digits already emitted. -/
def commaRev : List Char → Nat → List Char
  | [], _ => []
  | c :: rest, k =>
      if k == 3 then ',' :: c :: commaRev rest 1 else c :: commaRev rest (k + 1)

/-- Python `f"{n:,}"` on a natural number. -/
def thousands (n : Nat) : List Char :=
  (commaRev (natChars n).reverse 0).reverse

/-- A cell as a non-negative count, when numeric. -/
def cellNat (c : Cell) : Option Nat :=
  match toNumeric c with
  | some n => if 0 ≤ n then some n.toNat else none
  | none => none

/-- The "Total Vusers" value of the most-recent run: the first row of the
normalized, end-time-sorted load dataset. -/
def firstRunTotalVusers (toDT : Cell → Option Int) (load_df : DataFrame) :
    Option Nat :=
  ((lsSorted toDT load_df).rows.head?.bind
    (fun r => getCell? (lsSorted toDT load_df) r ("Total Vusers".data))).bind
    cellNat

/-- The sum of a "User distribution" column over all rows, when the column
exists. -/
def userDistSum (df : DataFrame) : Option Nat :=
  match colIdx df ("User distribution".data) with
  | none => none
  | some i =>
      some ((df.rows.map (fun r => (cellNat (r.getD i Cell.nan)).getD 0)).sum)

/-- Modelled from the spec: the Executed-User-Count Detector of §4.9.  The
spec's design notes (§9) place it in the later of two near-duplicate email
builders; that variant is not among the source files — the `build_email.py`
present only reads the fixed fallback from the environment (line 13,
default "5,000").  Preference order per the spec: (a) a "Total Vusers"
numeric value on the most-recent run, thousands-formatted; (b) the sum of a
"User distribution" column across all rows, thousands-formatted; (c) the
fixed fallback string; the first successful source wins. -/
def detect_executed_users (toDT : Cell → Option Int) (load_df : DataFrame) :
    List Char :=
  match firstRunTotalVusers toDT load_df with
  | some n => thousands n
  | none =>
      match userDistSum load_df with
      | some m => thousands m
      | none => "5,000".data

/-! ## General lemmas -/

theorem bool_not_true {b : Bool} (h : (!b) = true) : b = false := by
  cases b
  · rfl
  · exact absurd h (by decide)

theorem bool_not_of_false {b : Bool} (h : b = false) : (!b) = true := by
  rw [h]; rfl

theorem leadMatch_append (p xs ys : List Char) (h : p.length ≤ xs.length) :
    leadMatch p (xs ++ ys) = leadMatch p xs := by
  induction p generalizing xs with
  | nil => simp [leadMatch]
  | cons a ps ih =>
    cases xs with
    | nil => simp at h
    | cons x xs =>
      show (a == x && leadMatch ps (xs ++ ys)) = (a == x && leadMatch ps xs)
      rw [ih xs (by simpa using h)]

theorem leadMatch_imp_mayMatch (p x : List Char) (h : leadMatch p x = true) :
    mayMatch p x = true := by
  induction p generalizing x with
  | nil => cases x <;> rfl
  | cons a ps ih =>
    cases x with
    | nil => simp [leadMatch] at h
    | cons c cs =>
      simp only [leadMatch, Bool.and_eq_true] at h
      simp only [mayMatch, Bool.and_eq_true]
      exact ⟨h.1, ih cs h.2⟩

theorem mayMatch_append_of_false (p a b : List Char)
    (h : mayMatch p a = false) : mayMatch p (a ++ b) = false := by
  induction p generalizing a with
  | nil => cases a with
    | nil => simp [mayMatch] at h
    | cons c cs => simp [mayMatch] at h
  | cons x ps ih =>
    cases a with
    | nil => simp [mayMatch] at h
    | cons c cs =>
      simp only [mayMatch, Bool.and_eq_false_iff] at h
      rcases h with h | h
      · show (x == c && mayMatch ps (cs ++ b)) = false
        rw [h]; rfl
      · show (x == c && mayMatch ps (cs ++ b)) = false
        rw [ih cs h, Bool.and_false]

theorem splitOK_append (q a b : List Char) (ha : splitOK q a = true)
    (hb : splitOK q b = true) : splitOK q (a ++ b) = true := by
  induction a with
  | nil => simpa using hb
  | cons c a ih =>
    have ha' : ((decide (q.length ≤ a.length) ||
        !(c == '<' && mayMatch q a)) && splitOK q a) = true := ha
    obtain ⟨h1, h2⟩ := (Bool.and_eq_true _ _).mp ha'
    show ((decide (q.length ≤ (a ++ b).length) ||
        !(c == '<' && mayMatch q (a ++ b))) && splitOK q (a ++ b)) = true
    refine (Bool.and_eq_true _ _).mpr ⟨?_, ih h2⟩
    rcases (Bool.or_eq_true _ _).mp h1 with hlen | hnot
    · refine (Bool.or_eq_true _ _).mpr (Or.inl ?_)
      have := decide_eq_true_eq.mp hlen
      simp only [decide_eq_true_eq, List.length_append]
      omega
    · refine (Bool.or_eq_true _ _).mpr (Or.inr ?_)
      rcases Bool.and_eq_false_iff.mp (bool_not_true hnot) with hf | hmm
      · exact bool_not_of_false (Bool.and_eq_false_iff.mpr (Or.inl hf))
      · exact bool_not_of_false (Bool.and_eq_false_iff.mpr
          (Or.inr (mayMatch_append_of_false q a b hmm)))

theorem splitOK_of_not_mem (q a : List Char) (h : '<' ∉ a) :
    splitOK q a = true := by
  induction a with
  | nil => rfl
  | cons c a ih =>
    simp only [List.mem_cons, not_or] at h
    show ((decide (q.length ≤ a.length) ||
        !(c == '<' && mayMatch q a)) && splitOK q a) = true
    refine (Bool.and_eq_true _ _).mpr ⟨(Bool.or_eq_true _ _).mpr (Or.inr ?_), ih h.2⟩
    exact bool_not_of_false (Bool.and_eq_false_iff.mpr
      (Or.inl (beq_eq_false_iff_ne.mpr (fun hc => h.1 hc.symm))))

theorem countSub_of_not_mem (q a : List Char) (h : '<' ∉ a) :
    countSub ('<' :: q) a = 0 := by
  induction a with
  | nil => rfl
  | cons c a ih =>
    simp only [List.mem_cons, not_or] at h
    have hf : ('<' == c) = false := beq_eq_false_iff_ne.mpr h.1
    have hm : leadMatch ('<' :: q) (c :: a) = false := by
      show (('<' == c) && leadMatch q a) = false
      rw [hf]; rfl
    show (if leadMatch ('<' :: q) (c :: a) then 1 else 0) + countSub ('<' :: q) a = 0
    rw [hm, ih h.2]
    rfl

theorem countSub_append (q a b : List Char) (h : splitOK q a = true) :
    countSub ('<' :: q) (a ++ b) =
      countSub ('<' :: q) a + countSub ('<' :: q) b := by
  induction a with
  | nil => simp [countSub]
  | cons c a ih =>
    have h' : ((decide (q.length ≤ a.length) ||
        !(c == '<' && mayMatch q a)) && splitOK q a) = true := h
    obtain ⟨h1, h2⟩ := (Bool.and_eq_true _ _).mp h'
    have hsplit : q.length ≤ a.length ∨ (c == '<') = false ∨
        mayMatch q a = false := by
      rcases (Bool.or_eq_true _ _).mp h1 with hlen | hnot
      · exact Or.inl (decide_eq_true_eq.mp hlen)
      · rcases Bool.and_eq_false_iff.mp (bool_not_true hnot) with hf | hmm
        · exact Or.inr (Or.inl hf)
        · exact Or.inr (Or.inr hmm)
    have ih' := ih h2
    have hl : countSub ('<' :: q) (c :: a ++ b) =
        (if leadMatch ('<' :: q) (c :: (a ++ b)) then 1 else 0) +
          countSub ('<' :: q) (a ++ b) := rfl
    have hr : countSub ('<' :: q) (c :: a) =
        (if leadMatch ('<' :: q) (c :: a) then 1 else 0) +
          countSub ('<' :: q) a := rfl
    have key : leadMatch ('<' :: q) (c :: (a ++ b)) =
        leadMatch ('<' :: q) (c :: a) := by
      rcases hsplit with hlen | hf | hmm
      · show (('<' == c) && leadMatch q (a ++ b)) = (('<' == c) && leadMatch q a)
        rw [leadMatch_append q a b hlen]
      · have hf' : ('<' == c) = false := by
          rw [beq_eq_false_iff_ne] at hf ⊢
          exact fun hc => hf hc.symm
        show (('<' == c) && leadMatch q (a ++ b)) = (('<' == c) && leadMatch q a)
        rw [hf']; rfl
      · have h1 : leadMatch q (a ++ b) = false := by
          cases hlm : leadMatch q (a ++ b) with
          | false => rfl
          | true =>
            have hmay := leadMatch_imp_mayMatch q (a ++ b) hlm
            rw [mayMatch_append_of_false q a b hmm] at hmay
            exact absurd hmay (by simp)
        have h2 : leadMatch q a = false := by
          cases hlm : leadMatch q a with
          | false => rfl
          | true =>
            have hmay := leadMatch_imp_mayMatch q a hlm
            rw [hmm] at hmay
            exact absurd hmay (by simp)
        show (('<' == c) && leadMatch q (a ++ b)) = (('<' == c) && leadMatch q a)
        rw [h1, h2]
    rw [hl, hr, key, ih']
    omega

/-- Occurrence count distributes over a literal-escaped-literal sandwich:
the escaped middle contributes nothing. -/
theorem countSub_sandwich (q lit1 mid lit2 : List Char)
    (h1 : splitOK q lit1 = true) (hm : '<' ∉ mid) :
    countSub ('<' :: q) (lit1 ++ mid ++ lit2) =
      countSub ('<' :: q) lit1 + countSub ('<' :: q) lit2 := by
  rw [List.append_assoc, countSub_append q lit1 (mid ++ lit2) h1,
    countSub_append q mid lit2 (splitOK_of_not_mem q mid hm),
    countSub_of_not_mem q mid hm]
  omega

theorem splitOK_sandwich (q lit1 mid lit2 : List Char)
    (h1 : splitOK q lit1 = true) (hm : '<' ∉ mid)
    (h2 : splitOK q lit2 = true) : splitOK q (lit1 ++ mid ++ lit2) = true :=
  splitOK_append q _ _ (splitOK_append q _ _ h1 (splitOK_of_not_mem q mid hm)) h2

theorem splitOK_flatten (q : List Char) (l : List (List Char))
    (h : ∀ a ∈ l, splitOK q a = true) : splitOK q l.flatten = true := by
  induction l with
  | nil => rfl
  | cons x l ih =>
    simp only [List.flatten_cons]
    exact splitOK_append q x l.flatten (h x (by simp))
      (ih (fun a ha => h a (by simp [ha])))

theorem countSub_flatten (q : List Char) (l : List (List Char))
    (h : ∀ a ∈ l, splitOK q a = true) :
    countSub ('<' :: q) l.flatten = (l.map (countSub ('<' :: q))).sum := by
  induction l with
  | nil => rfl
  | cons x l ih =>
    simp only [List.flatten_cons, List.map_cons, List.sum_cons]
    rw [countSub_append q x l.flatten (h x (by simp)),
      ih (fun a ha => h a (by simp [ha]))]

theorem sum_map_const_nat {α : Type} (l : List α) (f : α → Nat) (k : Nat)
    (h : ∀ x ∈ l, f x = k) : (l.map f).sum = k * l.length := by
  induction l with
  | nil => simp
  | cons x l ih =>
    simp only [List.map_cons, List.sum_cons, List.length_cons]
    rw [h x (by simp), ih (fun a ha => h a (by simp [ha]))]
    ring

/-- Escaping never emits a `<` character. -/
theorem not_mem_escapeChar (c : Char) : '<' ∉ escapeChar c := by
  unfold escapeChar
  split
  · decide
  · split
    · decide
    · split
      · decide
      · split
        · decide
        · split
          · decide
          · rename_i h1 h2 h3 h4 h5
            simp only [List.mem_singleton]
            exact fun hc => h2 hc.symm

theorem not_mem_htmlEscape (s : List Char) : '<' ∉ htmlEscape s := by
  intro h
  rw [htmlEscape, List.mem_flatten] at h
  obtain ⟨a, ha, hma⟩ := h
  rw [List.mem_map] at ha
  obtain ⟨c, _, rfl⟩ := ha
  exact not_mem_escapeChar c hma

theorem containsSub_here (p a b : List Char) : containsSub p (a ++ p ++ b) :=
  ⟨a, b, rfl⟩

theorem containsSub_extend (p s a b : List Char) (h : containsSub p s) :
    containsSub p (a ++ s ++ b) := by
  obtain ⟨x, y, rfl⟩ := h
  exact ⟨a ++ x, y ++ b, by simp [List.append_assoc]⟩

theorem leadMatch_self_append (p b : List Char) : leadMatch p (p ++ b) = true := by
  induction p with
  | nil => rfl
  | cons c q ih =>
    show (c == c && leadMatch q (q ++ b)) = true
    rw [ih, beq_self_eq_true]
    rfl

theorem countSub_cons_ge (p : List Char) (c : Char) (s : List Char) :
    countSub p s ≤ countSub p (c :: s) := by
  have h : countSub p (c :: s) =
      (if leadMatch p (c :: s) then 1 else 0) + countSub p s := rfl
  rw [h]
  exact Nat.le_add_left _ _

theorem containsSub_countSub (p s : List Char) (hp : p ≠ [])
    (h : containsSub p s) : 1 ≤ countSub p s := by
  obtain ⟨a, b, rfl⟩ := h
  induction a with
  | nil =>
    cases p with
    | nil => exact absurd rfl hp
    | cons c q =>
      have hs : ([] : List Char) ++ (c :: q) ++ b = c :: (q ++ b) := rfl
      have hc : countSub (c :: q) (c :: (q ++ b)) =
          (if leadMatch (c :: q) (c :: (q ++ b)) then 1 else 0) +
            countSub (c :: q) (q ++ b) := rfl
      have hm : leadMatch (c :: q) (c :: (q ++ b)) = true :=
        leadMatch_self_append (c :: q) b
      rw [hs, hc, hm]
      simp
  | cons c a ih =>
    have hs : (c :: a) ++ p ++ b = c :: (a ++ p ++ b) := rfl
    rw [hs]
    exact le_trans ih (countSub_cons_ge p c (a ++ p ++ b))

theorem length_insertBy {α : Type} (le : α → α → Bool) (x : α) (l : List α) :
    (insertBy le x l).length = l.length + 1 := by
  induction l with
  | nil => rfl
  | cons y ys ih =>
    unfold insertBy
    split
    · simp
    · simp [ih]

theorem length_sortBy {α : Type} (le : α → α → Bool) (l : List α) :
    (sortBy le l).length = l.length := by
  induction l with
  | nil => rfl
  | cons x xs ih => simp [sortBy, length_insertBy, ih]

/-! ## Tag counting in the serializer output -/

theorem countSub_wrapped (q lit1 lit2 : List Char) (l : List (List Char))
    (h1 : splitOK q lit1 = true) (hl : ∀ a ∈ l, splitOK q a = true) :
    countSub ('<' :: q) (lit1 ++ l.flatten ++ lit2) =
      countSub ('<' :: q) lit1 + (l.map (countSub ('<' :: q))).sum +
        countSub ('<' :: q) lit2 := by
  rw [List.append_assoc, countSub_append q lit1 _ h1,
    countSub_append q _ _ (splitOK_flatten q l hl), countSub_flatten q l hl]
  omega

theorem splitOK_wrapped (q lit1 lit2 : List Char) (l : List (List Char))
    (h1 : splitOK q lit1 = true) (hl : ∀ a ∈ l, splitOK q a = true)
    (h2 : splitOK q lit2 = true) :
    splitOK q (lit1 ++ l.flatten ++ lit2) = true :=
  splitOK_append q _ _ (splitOK_append q _ _ h1 (splitOK_flatten q l hl)) h2

theorem countSub_headCellHtml (q : List Char) (c : List Char)
    (h2 : splitOK q headCellPre = true) :
    countSub ('<' :: q) (headCellHtml c) =
      countSub ('<' :: q) headCellPre + countSub ('<' :: q) ("</th>".data) := by
  unfold headCellHtml
  exact countSub_sandwich q headCellPre (htmlEscape c) ("</th>".data) h2
    (not_mem_htmlEscape c)

theorem splitOK_headCellHtml (q : List Char) (c : List Char)
    (h2 : splitOK q headCellPre = true)
    (h3 : splitOK q ("</th>".data) = true) :
    splitOK q (headCellHtml c) = true := by
  unfold headCellHtml
  exact splitOK_sandwich q headCellPre (htmlEscape c) ("</th>".data) h2
    (not_mem_htmlEscape c) h3

theorem countSub_bodyCellHtml (q : List Char) (v : Cell)
    (h2 : splitOK q bodyCellPre = true) :
    countSub ('<' :: q) (bodyCellHtml v) =
      countSub ('<' :: q) bodyCellPre + countSub ('<' :: q) ("</td>".data) := by
  unfold bodyCellHtml
  exact countSub_sandwich q bodyCellPre (htmlEscape (display v)) ("</td>".data)
    h2 (not_mem_htmlEscape (display v))

theorem splitOK_bodyCellHtml (q : List Char) (v : Cell)
    (h2 : splitOK q bodyCellPre = true)
    (h3 : splitOK q ("</td>".data) = true) :
    splitOK q (bodyCellHtml v) = true := by
  unfold bodyCellHtml
  exact splitOK_sandwich q bodyCellPre (htmlEscape (display v)) ("</td>".data)
    h2 (not_mem_htmlEscape (display v)) h3

theorem countSub_headHtml (q : List Char) (cols : List (List Char))
    (htr : splitOK q ("<tr>".data) = true)
    (h2 : splitOK q headCellPre = true)
    (h3 : splitOK q ("</th>".data) = true) :
    countSub ('<' :: q) (headHtml cols) =
      countSub ('<' :: q) ("<tr>".data) +
        (countSub ('<' :: q) headCellPre + countSub ('<' :: q) ("</th>".data)) *
          cols.length +
        countSub ('<' :: q) ("</tr>".data) := by
  unfold headHtml
  rw [countSub_wrapped q ("<tr>".data) ("</tr>".data) (cols.map headCellHtml)
    htr (fun a ha => ?_)]
  · have hsum : ((cols.map headCellHtml).map (countSub ('<' :: q))).sum =
        (countSub ('<' :: q) headCellPre +
          countSub ('<' :: q) ("</th>".data)) * cols.length := by
      rw [List.map_map]
      exact sum_map_const_nat cols (countSub ('<' :: q) ∘ headCellHtml)
        (countSub ('<' :: q) headCellPre + countSub ('<' :: q) ("</th>".data))
        (fun c _ => countSub_headCellHtml q c h2)
    rw [hsum]
  · obtain ⟨c, _, rfl⟩ := List.mem_map.mp ha
    exact splitOK_headCellHtml q c h2 h3

theorem splitOK_headHtml (q : List Char) (cols : List (List Char))
    (htr : splitOK q ("<tr>".data) = true)
    (h2 : splitOK q headCellPre = true)
    (h3 : splitOK q ("</th>".data) = true)
    (hctr : splitOK q ("</tr>".data) = true) :
    splitOK q (headHtml cols) = true := by
  unfold headHtml
  refine splitOK_wrapped q ("<tr>".data) ("</tr>".data) (cols.map headCellHtml)
    htr (fun a ha => ?_) hctr
  obtain ⟨c, _, rfl⟩ := List.mem_map.mp ha
  exact splitOK_headCellHtml q c h2 h3

theorem countSub_bodyRowHtml (q : List Char) (r : List Cell)
    (htr : splitOK q ("<tr>".data) = true)
    (h2 : splitOK q bodyCellPre = true)
    (h3 : splitOK q ("</td>".data) = true) :
    countSub ('<' :: q) (bodyRowHtml r) =
      countSub ('<' :: q) ("<tr>".data) +
        (countSub ('<' :: q) bodyCellPre + countSub ('<' :: q) ("</td>".data)) *
          r.length +
        countSub ('<' :: q) ("</tr>".data) := by
  unfold bodyRowHtml
  rw [countSub_wrapped q ("<tr>".data) ("</tr>".data) (r.map bodyCellHtml)
    htr (fun a ha => ?_)]
  · have hsum : ((r.map bodyCellHtml).map (countSub ('<' :: q))).sum =
        (countSub ('<' :: q) bodyCellPre +
          countSub ('<' :: q) ("</td>".data)) * r.length := by
      rw [List.map_map]
      exact sum_map_const_nat r (countSub ('<' :: q) ∘ bodyCellHtml)
        (countSub ('<' :: q) bodyCellPre + countSub ('<' :: q) ("</td>".data))
        (fun v _ => countSub_bodyCellHtml q v h2)
    rw [hsum]
  · obtain ⟨v, _, rfl⟩ := List.mem_map.mp ha
    exact splitOK_bodyCellHtml q v h2 h3

theorem splitOK_bodyRowHtml (q : List Char) (r : List Cell)
    (htr : splitOK q ("<tr>".data) = true)
    (h2 : splitOK q bodyCellPre = true)
    (h3 : splitOK q ("</td>".data) = true)
    (hctr : splitOK q ("</tr>".data) = true) :
    splitOK q (bodyRowHtml r) = true := by
  unfold bodyRowHtml
  refine splitOK_wrapped q ("<tr>".data) ("</tr>".data) (r.map bodyCellHtml)
    htr (fun a ha => ?_) hctr
  obtain ⟨v, _, rfl⟩ := List.mem_map.mp ha
  exact splitOK_bodyCellHtml q v h2 h3

/-- Count of a `<`-headed pattern over the whole non-empty serializer
output, as a function of the per-chunk counts. -/
theorem countSub_table (q : List Char) (df : DataFrame)
    (hne : df.isEmpty = false)
    (htp : splitOK q tablePre = true)
    (htr : splitOK q ("<tr>".data) = true)
    (hhc : splitOK q headCellPre = true)
    (hbc : splitOK q bodyCellPre = true)
    (hth : splitOK q ("</th>".data) = true)
    (htd : splitOK q ("</td>".data) = true)
    (hctr : splitOK q ("</tr>".data) = true) :
    countSub ('<' :: q) (df_to_html_table df true) =
      countSub ('<' :: q) tablePre +
        countSub ('<' :: q) (headHtml df.columns) +
        (df.rows.map (fun r => countSub ('<' :: q) (bodyRowHtml r))).sum +
        countSub ('<' :: q) ("</table>".data) := by
  unfold df_to_html_table
  rw [hne]
  simp only [Bool.false_eq_true, if_false, if_true]
  have hh : splitOK q (headHtml df.columns) = true :=
    splitOK_headHtml q df.columns htr hhc hth hctr
  have hrows : ∀ a ∈ df.rows.map bodyRowHtml, splitOK q a = true := by
    intro a ha
    obtain ⟨r, _, rfl⟩ := List.mem_map.mp ha
    exact splitOK_bodyRowHtml q r htr hbc htd hctr
  rw [countSub_append q _ _ (splitOK_append q _ _
      (splitOK_append q _ _ htp hh) (splitOK_flatten q _ hrows)),
    countSub_append q _ _ (splitOK_append q _ _ htp hh),
    countSub_append q _ _ htp,
    countSub_flatten q _ hrows, List.map_map]
  rfl

/-! ## Structural lemmas on the load-summary selection -/

theorem lsSorted_length (toDT : Cell → Option Int) (df : DataFrame) :
    (lsSorted toDT df).rows.length = df.rows.length := by
  unfold lsSorted
  split
  · rfl
  · simp [length_sortBy, lsNormalize, applyRename]

theorem lsTwo_length (toDT : Cell → Option Int) (df : DataFrame)
    (h : df.rows ≠ []) : (lsTwo toDT df).rows.length = 2 := by
  have h1 : 1 ≤ (lsSorted toDT df).rows.length := by
    rw [lsSorted_length]
    cases hr : df.rows with
    | nil => exact absurd hr h
    | cons a l => simp
  unfold lsTwo
  by_cases hc : ((lsSorted toDT df).rows.take 2).length < 2
  · rw [if_pos hc]
    rw [List.length_take] at hc ⊢
    rw [List.length_append, List.length_take]
    omega
  · rw [if_neg hc]
    rw [List.length_take] at hc ⊢
    omega

theorem lsSorted_singleton (toDT : Cell → Option Int) (df : DataFrame)
    (r : List Cell) (h : df.rows = [r]) :
    ∃ x, (lsSorted toDT df).rows = [x] := by
  unfold lsSorted
  split
  · exact ⟨r, by simp [lsNormalize, applyRename, h]⟩
  · rename_i i hi
    exact ⟨r.set i (toDTCell toDT (r.getD i Cell.nan)),
      by simp [lsNormalize, applyRename, h, sortBy, insertBy]⟩

theorem lsTwo_singleton (toDT : Cell → Option Int) (df : DataFrame)
    (r : List Cell) (h : df.rows = [r]) :
    ∃ x, (lsTwo toDT df).rows = [x, x] := by
  obtain ⟨x, hx⟩ := lsSorted_singleton toDT df r h
  refine ⟨x, ?_⟩
  unfold lsTwo
  rw [hx]
  rfl

/-! ## Claim theorems -/

set_option maxRecDepth 100000

/-- C7: for every file name whose resolved path under the configured base
directory does not exist, the loader returns the empty dataset (zero rows,
zero columns) and never raises for the missing file. -/
theorem c7_read_missing_gives_empty (dataDir : List Char)
    (fs : List Char → Option (Except (List Char) DataFrame))
    (name : List Char) (h : fs (joinPath dataDir name) = none) :
    read_csv_safe dataDir fs name = Except.ok emptyDF ∧
      emptyDF.rows.length = 0 ∧ emptyDF.columns.length = 0 ∧
      ∀ e, read_csv_safe dataDir fs name ≠ Except.error e := by
  have hr : read_csv_safe dataDir fs name = Except.ok emptyDF := by
    unfold read_csv_safe
    rw [h]
  refine ⟨hr, rfl, rfl, ?_⟩
  intro e he
  rw [hr] at he
  exact Except.noConfusion he

/-- Witness for C7 at a concrete empty file system. -/
theorem c7_read_missing_gives_empty_witness :
    read_csv_safe ("data".data) (fun _ => none) ("load_test_results.csv".data)
      = Except.ok emptyDF :=
  (c7_read_missing_gives_empty ("data".data) (fun _ => none)
    ("load_test_results.csv".data) rfl).1

/-- C1: the executed-user-count detector prefers, in order: (a) the
"Total Vusers" value of the most-recent run, thousands-formatted; (b) the
sum of a "User distribution" column across all rows, thousands-formatted;
(c) the fixed fallback "5,000"; the first successful source wins and later
sources are not consulted.  5000 formats to "5,000" and 3000 to "3,000". -/
theorem c1_detector_preference (toDT : Cell → Option Int) (df : DataFrame) :
    (∀ n, firstRunTotalVusers toDT df = some n →
      detect_executed_users toDT df = thousands n) ∧
    (firstRunTotalVusers toDT df = none →
      ∀ m, userDistSum df = some m →
        detect_executed_users toDT df = thousands m) ∧
    (firstRunTotalVusers toDT df = none → userDistSum df = none →
      detect_executed_users toDT df = "5,000".data) ∧
    thousands 5000 = "5,000".data ∧ thousands 3000 = "3,000".data := by
  refine ⟨?_, ?_, ?_, by decide, by decide⟩
  · intro n hn
    unfold detect_executed_users
    rw [hn]
  · intro h0 m hm
    unfold detect_executed_users
    rw [h0, hm]
  · intro h0 h1
    unfold detect_executed_users
    rw [h0, h1]

/-- Witness for C1: a "Total Vusers" value 5000 on the only run gives
"5,000"; no such column with a "User distribution" summing to 3000 gives
"3,000"; neither gives the fallback. -/
theorem c1_detector_preference_witness :
    detect_executed_users (fun _ => none)
        ⟨["RunID".data, "Total Vusers".data], [[Cell.num 984, Cell.num 5000]]⟩
      = "5,000".data ∧
    detect_executed_users (fun _ => none)
        ⟨["User distribution".data], [[Cell.num 1000], [Cell.num 2000]]⟩
      = "3,000".data ∧
    detect_executed_users (fun _ => none) emptyDF = "5,000".data := by
  refine ⟨?_, ?_, ?_⟩
  · have h := (c1_detector_preference (fun _ => none)
      ⟨["RunID".data, "Total Vusers".data],
       [[Cell.num 984, Cell.num 5000]]⟩).1 5000 (by decide)
    rw [h]
    decide
  · have h := ((c1_detector_preference (fun _ => none)
      ⟨["User distribution".data],
       [[Cell.num 1000], [Cell.num 2000]]⟩).2.1) (by decide) 3000 (by decide)
    rw [h]
    decide
  · exact ((c1_detector_preference (fun _ => none) emptyDF).2.2.1)
      (by decide) (by decide)

/-- C3 as stated is false on the code: an error dataset yielding the
500/422 sentence produces a non-empty observation list in which no
sentence mentions "comparison", and the fallback referencing the comparison
report is not appended. -/
theorem c3_counterexample :
    build_observations (fun _ => none) ("5,000".data) emptyDF
        ⟨["StatusCode".data, "Count".data],
         [[Cell.num 500, Cell.num 3], [Cell.num 422, Cell.num 0]]⟩ emptyDF
      = [errSentence ("5,000".data) 3 0] ∧
    countSub ("comparison".data) (errSentence ("5,000".data) 3 0) = 0 ∧
    errSentence ("5,000".data) 3 0 ≠ fallbackSentence := by
  exact ⟨by decide, by decide, by decide⟩

/-- C3 amended: the fallback sentence is appended exactly when the
degradation and error checks produced no observation, so the returned list
is never empty; a non-empty observation list is returned unchanged even
when none of its sentences mentions the comparison report. -/
theorem c3_fallback_only_when_empty (toDT : Cell → Option Int)
    (eu : List Char) (load err slow : DataFrame) :
    build_observations toDT eu load err slow ≠ [] ∧
    (degradationObs toDT load ++ errorObs eu err = [] →
      build_observations toDT eu load err slow = [fallbackSentence]) ∧
    (degradationObs toDT load ++ errorObs eu err ≠ [] →
      build_observations toDT eu load err slow =
        degradationObs toDT load ++ errorObs eu err) := by
  refine ⟨?_, ?_, ?_⟩
  · unfold build_observations
    split
    · simp
    · rename_i hne
      exact hne
  · intro h
    unfold build_observations
    rw [if_pos h]
  · intro h
    unfold build_observations
    rw [if_neg h]

/-- Witness for C3 amended: empty inputs give exactly the fallback; the
500-error input gives a non-empty list. -/
theorem c3_fallback_only_when_empty_witness :
    build_observations (fun _ => none) ("5,000".data) emptyDF emptyDF emptyDF
      = [fallbackSentence] ∧
    build_observations (fun _ => none) ("5,000".data) emptyDF
        ⟨["StatusCode".data, "Count".data], [[Cell.num 500, Cell.num 3]]⟩
        emptyDF ≠ [] := by
  constructor
  · exact (c3_fallback_only_when_empty (fun _ => none) ("5,000".data)
      emptyDF emptyDF emptyDF).2.1 (by decide)
  · exact (c3_fallback_only_when_empty (fun _ => none) ("5,000".data)
      emptyDF ⟨["StatusCode".data, "Count".data], [[Cell.num 500, Cell.num 3]]⟩
      emptyDF).1

/-- C6: for every non-empty load dataset exactly two run records are
selected; when the dataset holds a single record, both selected rows are
that (same) record, so the composed heading line, every metric value and a
present RunID agree across the two columns, and no error occurs. -/
theorem c6_two_records (toDT : Cell → Option Int) (df : DataFrame)
    (h : df.isEmpty = false) :
    (lsTwo toDT df).rows.length = 2 ∧
    (df.rows.length = 1 →
      lsRow0 toDT df = lsRow1 toDT df ∧
      nameAndTime (lsTwo toDT df) (lsRow0 toDT df) =
        nameAndTime (lsTwo toDT df) (lsRow1 toDT df) ∧
      (∀ m, metricVal (lsTwo toDT df) (lsRow0 toDT df) m =
        metricVal (lsTwo toDT df) (lsRow1 toDT df) m) ∧
      ((colIdx (lsTwo toDT df) ("RunID".data)).isSome →
        runIdStr (lsTwo toDT df) (lsRow0 toDT df) ("Run A".data) =
          runIdStr (lsTwo toDT df) (lsRow1 toDT df) ("Run B".data))) := by
  have hrows : df.rows ≠ [] := by
    intro he
    unfold DataFrame.isEmpty at h
    rw [he] at h
    simp at h
  refine ⟨lsTwo_length toDT df hrows, ?_⟩
  intro h1
  obtain ⟨r, hr⟩ := List.length_eq_one.mp h1
  obtain ⟨x, hx⟩ := lsTwo_singleton toDT df r hr
  have h01 : lsRow0 toDT df = lsRow1 toDT df := by
    unfold lsRow0 lsRow1
    rw [hx]
    rfl
  refine ⟨h01, by rw [h01], fun m => by rw [h01], fun _ => ?_⟩
  unfold runIdStr
  split
  · rw [h01]
  · rename_i hno
    rename_i hsome
    exact absurd hsome hno

/-- C5: when the script-name column resolves, the scenarios reordering is a
permutation of the projected rows in which the relative order of the
non-"total" rows and of the "total" rows is preserved, and every row from
the position after the last non-"total" row on is a "total" row
(case-insensitive match). -/
theorem c5_total_rows_last (df : DataFrame) (sc : List Char)
    (h : scScriptPick df = some sc) :
    (scReordered df).rows.Perm (scProjected df).rows ∧
    (scReordered df).rows.filter
        (fun r => !isTotalRow (scProjected df) sc r) =
      (scProjected df).rows.filter
        (fun r => !isTotalRow (scProjected df) sc r) ∧
    (scReordered df).rows.filter
        (fun r => isTotalRow (scProjected df) sc r) =
      (scProjected df).rows.filter
        (fun r => isTotalRow (scProjected df) sc r) ∧
    ∀ r ∈ (scReordered df).rows.drop
        ((scProjected df).rows.filter
          (fun r => !isTotalRow (scProjected df) sc r)).length,
      isTotalRow (scProjected df) sc r = true := by
  have hmem : sc ∈ (scProjected df).columns := by
    have hk : scKeepCols df =
        (scScriptPick df ::
          [pick df ["Portal".data],
           pick df ["Achieved Volume".data, "Achieved_Volume".data,
             "achieved".data],
           pick df ["User distribution".data, "User_distribution".data,
             "users".data]]).filterMap id := rfl
    have hc : (scProjected df).columns = scKeepCols df := rfl
    rw [hc, hk, h]
    simp [List.filterMap_cons]
  have hidx : (colIdx (scProjected df) sc).isSome = true := by
    unfold colIdx
    cases hn : List.findIdx? (fun x => x == sc) (scProjected df).columns with
    | some i => rfl
    | none =>
        have := List.findIdx?_eq_none_iff.mp hn sc hmem
        simp at this
  have hre : scReordered df =
      ⟨(scProjected df).columns,
       (scProjected df).rows.filter
           (fun r => !isTotalRow (scProjected df) sc r) ++
         (scProjected df).rows.filter
           (fun r => isTotalRow (scProjected df) sc r)⟩ := by
    unfold scReordered
    split
    · rename_i hnone
      rw [h] at hnone
      cases hnone
    · rename_i sc' hsc'
      rw [h] at hsc'
      injection hsc' with he
      subst he
      rw [if_pos hidx]
  rw [hre]
  refine ⟨?_, ?_, ?_, ?_⟩
  · simpa [Bool.not_not] using List.filter_append_perm
      (fun r => !isTotalRow (scProjected df) sc r) (scProjected df).rows
  · rw [List.filter_append]
    have hA : ((scProjected df).rows.filter
        (fun r => !isTotalRow (scProjected df) sc r)).filter
          (fun r => !isTotalRow (scProjected df) sc r) =
        (scProjected df).rows.filter
          (fun r => !isTotalRow (scProjected df) sc r) := by
      apply List.filter_eq_self.mpr
      intro a ha
      exact (List.mem_filter.mp ha).2
    have hB : ((scProjected df).rows.filter
        (fun r => isTotalRow (scProjected df) sc r)).filter
          (fun r => !isTotalRow (scProjected df) sc r) = [] := by
      apply List.filter_eq_nil_iff.mpr
      intro a ha
      have := (List.mem_filter.mp ha).2
      simp [this]
    rw [hA, hB, List.append_nil]
  · rw [List.filter_append]
    have hA : ((scProjected df).rows.filter
        (fun r => !isTotalRow (scProjected df) sc r)).filter
          (fun r => isTotalRow (scProjected df) sc r) = [] := by
      apply List.filter_eq_nil_iff.mpr
      intro a ha
      have := (List.mem_filter.mp ha).2
      simp at this
      simp [this]
    have hB : ((scProjected df).rows.filter
        (fun r => isTotalRow (scProjected df) sc r)).filter
          (fun r => isTotalRow (scProjected df) sc r) =
        (scProjected df).rows.filter
          (fun r => isTotalRow (scProjected df) sc r) := by
      apply List.filter_eq_self.mpr
      intro a ha
      exact (List.mem_filter.mp ha).2
    rw [hA, hB, List.nil_append]
  · intro r hr
    rw [List.drop_left] at hr
    exact (List.mem_filter.mp hr).2

/-- Witness for C5: rows named A, Total, B end up serialized in the order
A, B, Total. -/
theorem c5_total_rows_last_witness :
    (scReordered ⟨["Script Name".data, "Portal".data, "Achieved Volume".data,
        "User distribution".data],
       [[Cell.s ("A".data), Cell.s ("p1".data), Cell.num 10, Cell.num 100],
        [Cell.s ("Total".data), Cell.s ("p".data), Cell.num 30, Cell.num 300],
        [Cell.s ("B".data), Cell.s ("p2".data), Cell.num 20, Cell.num 200]]⟩).rows.Perm
      (scProjected ⟨["Script Name".data, "Portal".data, "Achieved Volume".data,
        "User distribution".data],
       [[Cell.s ("A".data), Cell.s ("p1".data), Cell.num 10, Cell.num 100],
        [Cell.s ("Total".data), Cell.s ("p".data), Cell.num 30, Cell.num 300],
        [Cell.s ("B".data), Cell.s ("p2".data), Cell.num 20, Cell.num 200]]⟩).rows ∧
    (scReordered ⟨["Script Name".data, "Portal".data, "Achieved Volume".data,
        "User distribution".data],
       [[Cell.s ("A".data), Cell.s ("p1".data), Cell.num 10, Cell.num 100],
        [Cell.s ("Total".data), Cell.s ("p".data), Cell.num 30, Cell.num 300],
        [Cell.s ("B".data), Cell.s ("p2".data), Cell.num 20, Cell.num 200]]⟩).rows =
      [[Cell.s ("A".data), Cell.s ("p1".data), Cell.num 10, Cell.num 100],
       [Cell.s ("B".data), Cell.s ("p2".data), Cell.num 20, Cell.num 200],
       [Cell.s ("Total".data), Cell.s ("p".data), Cell.num 30, Cell.num 300]] := by
  constructor
  · exact (c5_total_rows_last _ ("Script Name".data) (by decide)).1
  · decide

/-- Witness for C6 at a concrete one-row dataset. -/
theorem c6_two_records_witness :
    (lsTwo (fun _ => none) ⟨["RunID".data], [[Cell.num 7]]⟩).rows.length = 2 ∧
    lsRow0 (fun _ => none) ⟨["RunID".data], [[Cell.num 7]]⟩ =
      lsRow1 (fun _ => none) ⟨["RunID".data], [[Cell.num 7]]⟩ := by
  have h := c6_two_records (fun _ => none) ⟨["RunID".data], [[Cell.num 7]]⟩
    (by decide)
  exact ⟨h.1, (h.2 (by decide)).1⟩

/-- The load summary on a non-empty dataset is the (heading, table) pair. -/
theorem build_load_summary_nonempty (toDT : Cell → Option Int)
    (df : DataFrame) (h : df.isEmpty = false) :
    build_load_summary toDT df = (lsHeading toDT df, lsMetricsTable toDT df) := by
  unfold build_load_summary
  rw [h]
  rfl

/-- C2 as stated is false on the code: with no override values supplied,
the comparison heading is built from fixed hard-coded default captions and
not from the Load Summary Builder's two-run heading lines.  For a load
dataset whose composed heading line is "PerfRun9 - 1 - 2", that line never
occurs in the comparison heading, which equals the built-in defaults. -/
theorem c2_counterexample :
    (build_comparison_tables (fun _ => none)
        ⟨["Transaction Names".data], [[Cell.s ("t1".data)]]⟩).1
      = compHeadA ++ compDefaultLeft ++ compHeadB ++ compDefaultRight ++
          compHeadC ∧
    nameAndTime
        (lsTwo toNumeric
          ⟨["RunName".data, "StartTime".data, "EndTime".data],
           [[Cell.s ("PerfRun9".data), Cell.num 1, Cell.num 2]]⟩)
        (lsRow0 toNumeric
          ⟨["RunName".data, "StartTime".data, "EndTime".data],
           [[Cell.s ("PerfRun9".data), Cell.num 1, Cell.num 2]]⟩)
      = "PerfRun9 - 1 - 2".data ∧
    countSub ("PerfRun9 - 1 - 2".data)
      ((build_comparison_tables (fun _ => none)
        ⟨["Transaction Names".data], [[Cell.s ("t1".data)]]⟩).1) = 0 := by
  exact ⟨by decide, by decide, by decide⟩

/-- C2 amended: for every non-empty comparison dataset the heading is the
fixed template around the two override values when they are supplied, and
around the built-in default captions otherwise; it is not derived from the
load dataset (the builder does not receive one). -/
theorem c2_heading_overrides_or_fixed (env : List Char → Option (List Char))
    (comp_df : DataFrame) (h : comp_df.isEmpty = false) :
    (build_comparison_tables env comp_df).1 =
      compHeadA ++ (env ("COMP_HEADING_LEFT".data)).getD compDefaultLeft ++
        compHeadB ++ (env ("COMP_HEADING_RIGHT".data)).getD compDefaultRight ++
        compHeadC ∧
    (∀ l r, env ("COMP_HEADING_LEFT".data) = some l →
      env ("COMP_HEADING_RIGHT".data) = some r →
      containsSub l ((build_comparison_tables env comp_df).1) ∧
      containsSub r ((build_comparison_tables env comp_df).1)) ∧
    (env ("COMP_HEADING_LEFT".data) = none →
      containsSub compDefaultLeft ((build_comparison_tables env comp_df).1)) := by
  have hh : (build_comparison_tables env comp_df).1 = compHeading env := by
    unfold build_comparison_tables
    rw [h]
    rfl
  refine ⟨by rw [hh]; rfl, ?_, ?_⟩
  · intro l r hl hr
    constructor
    · refine ⟨compHeadA,
        compHeadB ++ (env ("COMP_HEADING_RIGHT".data)).getD compDefaultRight ++
          compHeadC, ?_⟩
      rw [hh]
      unfold compHeading
      rw [hl]
      simp [List.append_assoc]
    · refine ⟨compHeadA ++ (env ("COMP_HEADING_LEFT".data)).getD
          compDefaultLeft ++ compHeadB, compHeadC, ?_⟩
      rw [hh]
      unfold compHeading
      rw [hr]
      simp [List.append_assoc]
  · intro hl
    refine ⟨compHeadA,
      compHeadB ++ (env ("COMP_HEADING_RIGHT".data)).getD compDefaultRight ++
        compHeadC, ?_⟩
    rw [hh]
    unfold compHeading
    rw [hl]
    simp [List.append_assoc]

/-- Witness for C2 amended: explicit overrides appear in the heading. -/
theorem c2_heading_overrides_or_fixed_witness :
    (build_comparison_tables
        (fun k => if k = "COMP_HEADING_LEFT".data then some ("L1".data)
          else if k = "COMP_HEADING_RIGHT".data then some ("R1".data)
          else none)
        ⟨["Deviation".data], [[Cell.num 1]]⟩).1 =
      compHeadA ++ "L1".data ++ compHeadB ++ "R1".data ++ compHeadC ∧
    containsSub ("L1".data)
      ((build_comparison_tables
        (fun k => if k = "COMP_HEADING_LEFT".data then some ("L1".data)
          else if k = "COMP_HEADING_RIGHT".data then some ("R1".data)
          else none)
        ⟨["Deviation".data], [[Cell.num 1]]⟩).1) := by
  have h := c2_heading_overrides_or_fixed
    (fun k => if k = "COMP_HEADING_LEFT".data then some ("L1".data)
      else if k = "COMP_HEADING_RIGHT".data then some ("R1".data)
      else none)
    ⟨["Deviation".data], [[Cell.num 1]]⟩ (by decide)
  constructor
  · rw [h.1]
    decide
  · exact (h.2.1 ("L1".data) ("R1".data) (by decide) (by decide)).1

/-- C4 as stated is false on the code: for a one-run dataset without a
RunName column, the composed line renders the Series.get default "Run" for
the missing RunName field, not the empty string. -/
theorem c4_counterexample :
    nameAndTime (lsTwo (fun _ => none) ⟨["RunID".data], [[Cell.num 7]]⟩)
        (lsRow0 (fun _ => none) ⟨["RunID".data], [[Cell.num 7]]⟩)
      = "Run -  - ".data ∧
    "Run -  - ".data ≠ " -  - ".data := by
  exact ⟨by decide, by decide⟩

/-- C4 amended: for every non-empty load dataset the heading fragment is
the fixed template holding both RunID slots and, for each of the two
selected runs, a composed "{RunName} - {StartTime} - {EndTime}" line in
which a missing StartTime or EndTime column renders as the empty string
while a missing RunName column renders as the default label "Run";
construction is total, so it never raises. -/
theorem c4_heading_shape (toDT : Cell → Option Int) (df : DataFrame)
    (h : df.isEmpty = false) :
    (build_load_summary toDT df).1 =
      lsHeadA ++ runIdStr (lsTwo toDT df) (lsRow0 toDT df) ("Run A".data) ++
      lsHeadB ++ runIdStr (lsTwo toDT df) (lsRow1 toDT df) ("Run B".data) ++
      lsHeadC ++ nameAndTime (lsTwo toDT df) (lsRow0 toDT df) ++
      lsHeadD ++ nameAndTime (lsTwo toDT df) (lsRow1 toDT df) ++ lsHeadE ∧
    (∀ r, nameAndTime (lsTwo toDT df) r =
      getStr (lsTwo toDT df) r ("RunName".data) ("Run".data) ++ " - ".data ++
      getStr (lsTwo toDT df) r ("StartTime".data) [] ++ " - ".data ++
      getStr (lsTwo toDT df) r ("EndTime".data) []) ∧
    (∀ r c d, colIdx (lsTwo toDT df) c = none →
      getStr (lsTwo toDT df) r c d = d) := by
  refine ⟨?_, fun r => rfl, ?_⟩
  · rw [build_load_summary_nonempty toDT df h]
    rfl
  · intro r c d hc
    unfold getStr getCell?
    rw [hc]
    rfl

/-- Witness for C4 amended at a dataset with only a RunID column. -/
theorem c4_heading_shape_witness :
    (build_load_summary (fun _ => none) ⟨["RunID".data], [[Cell.num 7]]⟩).1 =
      lsHeadA ++ "7".data ++ lsHeadB ++ "7".data ++ lsHeadC ++
      "Run -  - ".data ++ lsHeadD ++ "Run -  - ".data ++ lsHeadE := by
  have h := c4_heading_shape (fun _ => none) ⟨["RunID".data], [[Cell.num 7]]⟩
    (by decide)
  rw [h.1]
  decide

/-- C10: the load-summary heading and metric table are built by direct
string interpolation, not through the escaping serializer: the stringified
RunID cell of the first selected run occurs verbatim (unescaped) in the
heading whenever the RunID column exists, and a metric column that is
present with a missing (NaN) value renders as its stringification "nan" —
not the empty string — and occurs in the metric table. -/
theorem c10_unescaped_interpolation (toDT : Cell → Option Int)
    (df : DataFrame) (h : df.isEmpty = false) :
    ((colIdx (lsTwo toDT df) ("RunID".data)).isSome = true →
      containsSub
        (pyStr ((getCell? (lsTwo toDT df) (lsRow0 toDT df)
          ("RunID".data)).getD Cell.nan))
        ((build_load_summary toDT df).1)) ∧
    (∀ m, m ∈ metricOrder →
      (colIdx (lsTwo toDT df) m).isSome = true →
      (getCell? (lsTwo toDT df) (lsRow0 toDT df) m).getD Cell.nan = Cell.nan →
      metricVal (lsTwo toDT df) (lsRow0 toDT df) m = "nan".data ∧
      containsSub ("nan".data) ((build_load_summary toDT df).2)) := by
  constructor
  · intro hid
    have hv : runIdStr (lsTwo toDT df) (lsRow0 toDT df) ("Run A".data) =
        pyStr ((getCell? (lsTwo toDT df) (lsRow0 toDT df)
          ("RunID".data)).getD Cell.nan) := by
      unfold runIdStr
      rw [if_pos hid]
    refine ⟨lsHeadA,
      lsHeadB ++ runIdStr (lsTwo toDT df) (lsRow1 toDT df) ("Run B".data) ++
        lsHeadC ++ nameAndTime (lsTwo toDT df) (lsRow0 toDT df) ++
        lsHeadD ++ nameAndTime (lsTwo toDT df) (lsRow1 toDT df) ++ lsHeadE, ?_⟩
    rw [build_load_summary_nonempty toDT df h]
    show lsHeading toDT df = _
    unfold lsHeading
    rw [hv]
    simp [List.append_assoc]
  · intro m hm hcol hnan
    have hmv : metricVal (lsTwo toDT df) (lsRow0 toDT df) m = "nan".data := by
      unfold metricVal
      rw [if_pos hcol, hnan]
      rfl
    refine ⟨hmv, ?_⟩
    have hrow : containsSub ("nan".data)
        (lsMetricRow (lsTwo toDT df) (lsRow0 toDT df) (lsRow1 toDT df) m) := by
      refine ⟨lsRowA ++ m ++ lsRowB,
        lsRowB ++ metricVal (lsTwo toDT df) (lsRow1 toDT df) m ++ lsRowD, ?_⟩
      unfold lsMetricRow
      rw [hmv]
      simp [List.append_assoc]
    obtain ⟨l1, l2, hsplit⟩ := List.append_of_mem hm
    have htab : (build_load_summary toDT df).2 =
        (lsTableA ++
          ((l1.map (lsMetricRow (lsTwo toDT df) (lsRow0 toDT df)
            (lsRow1 toDT df))).flatten)) ++
        (lsMetricRow (lsTwo toDT df) (lsRow0 toDT df) (lsRow1 toDT df) m) ++
        (((l2.map (lsMetricRow (lsTwo toDT df) (lsRow0 toDT df)
            (lsRow1 toDT df))).flatten) ++ lsTableB) := by
      rw [build_load_summary_nonempty toDT df h]
      show lsMetricsTable toDT df = _
      unfold lsMetricsTable
      rw [hsplit, List.map_append, List.map_cons, List.flatten_append,
        List.flatten_cons]
      simp [List.append_assoc]
    obtain ⟨a, b, hab⟩ := hrow
    refine ⟨(lsTableA ++
        ((l1.map (lsMetricRow (lsTwo toDT df) (lsRow0 toDT df)
          (lsRow1 toDT df))).flatten)) ++ a,
      b ++ (((l2.map (lsMetricRow (lsTwo toDT df) (lsRow0 toDT df)
          (lsRow1 toDT df))).flatten) ++ lsTableB), ?_⟩
    rw [htab, hab]
    simp [List.append_assoc]

/-- Witness for C10: a RunID holding markup appears verbatim in the
heading; a present-but-NaN "Total Hits" renders "nan" in the table. -/
theorem c10_unescaped_interpolation_witness :
    containsSub ("<i>7</i>".data)
      ((build_load_summary toNumeric
        ⟨["RunID".data, "Total Hits".data],
         [[Cell.s ("<i>7</i>".data), Cell.nan]]⟩).1) ∧
    containsSub ("nan".data)
      ((build_load_summary toNumeric
        ⟨["RunID".data, "Total Hits".data],
         [[Cell.s ("<i>7</i>".data), Cell.nan]]⟩).2) := by
  have h := c10_unescaped_interpolation toNumeric
    ⟨["RunID".data, "Total Hits".data],
     [[Cell.s ("<i>7</i>".data), Cell.nan]]⟩ (by decide)
  constructor
  · have h1 := h.1 (by decide)
    have he : pyStr ((getCell?
        (lsTwo toNumeric ⟨["RunID".data, "Total Hits".data],
          [[Cell.s ("<i>7</i>".data), Cell.nan]]⟩)
        (lsRow0 toNumeric ⟨["RunID".data, "Total Hits".data],
          [[Cell.s ("<i>7</i>".data), Cell.nan]]⟩)
        ("RunID".data)).getD Cell.nan) = "<i>7</i>".data := by decide
    rw [he] at h1
    exact h1
  · exact (h.2 ("Total Hits".data) (by decide) (by decide) (by decide)).2

/-- C8: the serializer returns the fixed placeholder on an empty dataset;
on a non-empty dataset it emits exactly one header row — the tag "<tr>"
occurs once more than the number of records — whose "<th" cell count equals
the column count, and one "<tr>" body row per record; a missing (NaN) cell
renders as the empty string between its td tags, never as the literal
"None" or "NaN". -/
theorem c8_serializer_shape (df : DataFrame) :
    (df.isEmpty = true → df_to_html_table df true = noDataHtml) ∧
    (df.isEmpty = false →
      countSub ("<tr>".data) (df_to_html_table df true) = 1 + df.rows.length ∧
      countSub ("<th".data) (df_to_html_table df true) = df.columns.length) ∧
    bodyCellHtml Cell.nan = bodyCellPre ++ "</td>".data ∧
    countSub ("None".data) (bodyCellHtml Cell.nan) = 0 ∧
    countSub ("NaN".data) (bodyCellHtml Cell.nan) = 0 := by
  refine ⟨?_, ?_, by decide, by decide, by decide⟩
  · intro he
    unfold df_to_html_table
    rw [if_pos he]
  · intro hne
    constructor
    · have e : "<tr>".data = '<' :: ("tr>".data) := rfl
      rw [e, countSub_table ("tr>".data) df hne (by decide) (by decide)
          (by decide) (by decide) (by decide) (by decide) (by decide),
        countSub_headHtml ("tr>".data) df.columns (by decide) (by decide)
          (by decide)]
      have hsum : (df.rows.map
          (fun r => countSub ('<' :: ("tr>".data)) (bodyRowHtml r))).sum =
          1 * df.rows.length := by
        apply sum_map_const_nat
        intro r _
        rw [countSub_bodyRowHtml ("tr>".data) r (by decide) (by decide)
          (by decide)]
        have h1 : countSub ('<' :: ("tr>".data)) ("<tr>".data) = 1 := by decide
        have h2 : countSub ('<' :: ("tr>".data)) bodyCellPre = 0 := by decide
        have h3 : countSub ('<' :: ("tr>".data)) ("</td>".data) = 0 := by
          decide
        have h4 : countSub ('<' :: ("tr>".data)) ("</tr>".data) = 0 := by
          decide
        rw [h1, h2, h3, h4]
        omega
      rw [hsum]
      have g1 : countSub ('<' :: ("tr>".data)) tablePre = 0 := by decide
      have g2 : countSub ('<' :: ("tr>".data)) ("<tr>".data) = 1 := by decide
      have g3 : countSub ('<' :: ("tr>".data)) headCellPre = 0 := by decide
      have g4 : countSub ('<' :: ("tr>".data)) ("</th>".data) = 0 := by decide
      have g5 : countSub ('<' :: ("tr>".data)) ("</tr>".data) = 0 := by decide
      have g6 : countSub ('<' :: ("tr>".data)) ("</table>".data) = 0 := by
        decide
      rw [g1, g2, g3, g4, g5, g6]
      omega
    · have e : "<th".data = '<' :: ("th".data) := rfl
      rw [e, countSub_table ("th".data) df hne (by decide) (by decide)
          (by decide) (by decide) (by decide) (by decide) (by decide),
        countSub_headHtml ("th".data) df.columns (by decide) (by decide)
          (by decide)]
      have hsum : (df.rows.map
          (fun r => countSub ('<' :: ("th".data)) (bodyRowHtml r))).sum =
          0 * df.rows.length := by
        apply sum_map_const_nat
        intro r _
        rw [countSub_bodyRowHtml ("th".data) r (by decide) (by decide)
          (by decide)]
        have h1 : countSub ('<' :: ("th".data)) ("<tr>".data) = 0 := by decide
        have h2 : countSub ('<' :: ("th".data)) bodyCellPre = 0 := by decide
        have h3 : countSub ('<' :: ("th".data)) ("</td>".data) = 0 := by decide
        have h4 : countSub ('<' :: ("th".data)) ("</tr>".data) = 0 := by decide
        rw [h1, h2, h3, h4]
        omega
      rw [hsum]
      have g1 : countSub ('<' :: ("th".data)) tablePre = 0 := by decide
      have g2 : countSub ('<' :: ("th".data)) ("<tr>".data) = 0 := by decide
      have g3 : countSub ('<' :: ("th".data)) headCellPre = 1 := by decide
      have g4 : countSub ('<' :: ("th".data)) ("</th>".data) = 0 := by decide
      have g5 : countSub ('<' :: ("th".data)) ("</tr>".data) = 0 := by decide
      have g6 : countSub ('<' :: ("th".data)) ("</table>".data) = 0 := by
        decide
      rw [g1, g2, g3, g4, g5, g6]
      omega

/-- Witness for C8 at the empty dataset and a 2-column, 2-row dataset. -/
theorem c8_serializer_shape_witness :
    df_to_html_table emptyDF true = noDataHtml ∧
    countSub ("<tr>".data)
      (df_to_html_table ⟨["a".data, "b".data],
        [[Cell.num 1, Cell.nan], [Cell.s ("x".data), Cell.num 2]]⟩ true)
      = 3 ∧
    countSub ("<th".data)
      (df_to_html_table ⟨["a".data, "b".data],
        [[Cell.num 1, Cell.nan], [Cell.s ("x".data), Cell.num 2]]⟩ true)
      = 2 := by
  have h0 := (c8_serializer_shape emptyDF).1 (by decide)
  have h := (c8_serializer_shape ⟨["a".data, "b".data],
    [[Cell.num 1, Cell.nan], [Cell.s ("x".data), Cell.num 2]]⟩).2.1 (by decide)
  exact ⟨h0, h.1, h.2⟩

/-- C9: the serializer output never contains the substring "&lt;script&gt;"
unescaped: every header and cell value passes through HTML escaping, so for
any dataset — in particular one whose cells contain "<script>" — the
literal "<script>" does not occur in the output at all. -/
theorem c9_script_always_escaped (df : DataFrame) :
    countSub ("<script>".data) (df_to_html_table df true) = 0 := by
  by_cases he : df.isEmpty = true
  · unfold df_to_html_table
    rw [if_pos he]
    decide
  · have hne : df.isEmpty = false := by
      cases hb : df.isEmpty
      · rfl
      · exact absurd hb he
    have e : "<script>".data = '<' :: ("script>".data) := rfl
    rw [e, countSub_table ("script>".data) df hne (by decide) (by decide)
        (by decide) (by decide) (by decide) (by decide) (by decide),
      countSub_headHtml ("script>".data) df.columns (by decide) (by decide)
        (by decide)]
    have hsum : (df.rows.map
        (fun r => countSub ('<' :: ("script>".data)) (bodyRowHtml r))).sum =
        0 * df.rows.length := by
      apply sum_map_const_nat
      intro r _
      rw [countSub_bodyRowHtml ("script>".data) r (by decide) (by decide)
        (by decide)]
      have h1 : countSub ('<' :: ("script>".data)) ("<tr>".data) = 0 := by
        decide
      have h2 : countSub ('<' :: ("script>".data)) bodyCellPre = 0 := by
        decide
      have h3 : countSub ('<' :: ("script>".data)) ("</td>".data) = 0 := by
        decide
      have h4 : countSub ('<' :: ("script>".data)) ("</tr>".data) = 0 := by
        decide
      rw [h1, h2, h3, h4]
      omega
    rw [hsum]
    have g1 : countSub ('<' :: ("script>".data)) tablePre = 0 := by decide
    have g2 : countSub ('<' :: ("script>".data)) ("<tr>".data) = 0 := by decide
    have g3 : countSub ('<' :: ("script>".data)) headCellPre = 0 := by decide
    have g4 : countSub ('<' :: ("script>".data)) ("</th>".data) = 0 := by
      decide
    have g5 : countSub ('<' :: ("script>".data)) ("</tr>".data) = 0 := by
      decide
    have g6 : countSub ('<' :: ("script>".data)) ("</table>".data) = 0 := by
      decide
    rw [g1, g2, g3, g4, g5, g6]
    omega

end LoadEmail
